import Mathlib

/-!
Verification of the stimulus catalog in `stimuli_list.js`.

The source file declares four collections for a speech-emotion experiment:
the discrimination pairs (`PAIRS_DISCRIMINATION`), the dry-vs-reverb targets
(`TARGETS_DRY_RVB`), the literal practice 5AFC file list
(`FILES_PRACTICE_5AFC`), and the test 5AFC file list (`FILES_TEST_5AFC`),
the last being generated by a four-level nested loop over fixed input lists.
Each JavaScript value is embedded below as a Lean definition of the same
name, and the generation loop is embedded as the pure function
`generateTestFilenames`.
-/

/-- One entry of `PAIRS_DISCRIMINATION`: target emotion `t`, filenames
`a` and `b` of the two clips presented in a trial. -/
structure DiscriminationPair where
  t : String
  a : String
  b : String
deriving DecidableEq, Repr

/-- One entry of `TARGETS_DRY_RVB`: emotion, speaker sex and utterance id. -/
structure DryReverbTarget where
  emo : String
  sex : String
  utt : String
deriving DecidableEq, Repr

/-- The literal `PAIRS_DISCRIMINATION` array of the source. -/
def PAIRS_DISCRIMINATION : List DiscriminationPair :=
  [ { t := "sad", a := "sad_F137.wav", b := "fear_F137.wav" },
    { t := "sad", a := "sad_M137.wav", b := "fear_M137.wav" },
    { t := "amu", a := "amu_F545.wav", b := "rel_F545.wav" },
    { t := "amu", a := "amu_M545.wav", b := "rel_M545.wav" } ]

/-- The literal `TARGETS_DRY_RVB` array of the source. -/
def TARGETS_DRY_RVB : List DryReverbTarget :=
  [ { emo := "sad",  sex := "F", utt := "137" },
    { emo := "sad",  sex := "M", utt := "137" },
    { emo := "fear", sex := "F", utt := "137" },
    { emo := "fear", sex := "M", utt := "137" },
    { emo := "amu",  sex := "F", utt := "545" },
    { emo := "amu",  sex := "M", utt := "545" },
    { emo := "rel",  sex := "F", utt := "545" },
    { emo := "rel",  sex := "M", utt := "545" } ]

/-- The literal `FILES_PRACTICE_5AFC` array of the source. -/
def FILES_PRACTICE_5AFC : List String :=
  [ "amu_F137.wav", "amu_M137.wav",
    "ang_F137.wav", "ang_M137.wav",
    "sad_F137.wav", "sad_M137.wav",
    "fear_F137.wav", "fear_M137.wav",
    "surp_F137.wav", "surp_M137.wav" ]

/-- The `emotions` input list of the generation loop. -/
def emotions : List String := ["amu", "ang", "sad", "fear", "surp"]

/-- The `sexes` input list of the generation loop. -/
def sexes : List String := ["F", "M"]

/-- The `utterances` input list of the generation loop. -/
def utterances : List String := ["820", "545"]

/-- The `conditions` input list of the generation loop; the empty string
stands for the dry condition. -/
def conditions : List String := ["", "_rvb1", "_rvb2"]

/-- The filename template of the generation loop:
`emo + "_" + sex + utt + cond + ".wav"`. -/
def mkFilename (emo sex utt cond : String) : String :=
  emo ++ "_" ++ sex ++ utt ++ cond ++ ".wav"

/-- The four nested `forEach` loops of the source that push
`mkFilename emo sex utt cond` onto the result array, as a pure function of
the four input lists (emotion outermost, condition innermost; each push is
an append at the end of the accumulator). -/
def generateTestFilenames (es ss us cs : List String) : List String :=
  es.foldl (fun acc emo =>
    ss.foldl (fun acc sex =>
      us.foldl (fun acc utt =>
        cs.foldl (fun acc cond =>
          acc ++ [mkFilename emo sex utt cond]) acc) acc) acc) []

/-- The `FILES_TEST_5AFC` array after the generation loop has run. -/
def FILES_TEST_5AFC : List String :=
  generateTestFilenames emotions sexes utterances conditions

/-- The filename the nested-iteration order predicts for the tuple of
indices `(e, s, u, c)` into the four fixed input lists. -/
def tupleFilename (e : Fin 5) (s : Fin 2) (u : Fin 2) (c : Fin 3) : String :=
  mkFilename (emotions.getD e.val "") (sexes.getD s.val "")
    (utterances.getD u.val "") (conditions.getD c.val "")

/-- The characters of a filename before its first underscore
(the encoded emotion). -/
def charsBeforeUnderscore : List Char → List Char
  | [] => []
  | c :: cs => if c = '_' then [] else c :: charsBeforeUnderscore cs

/-- The characters of a filename after its first underscore. -/
def charsAfterUnderscore : List Char → List Char
  | [] => []
  | c :: cs => if c = '_' then cs else charsAfterUnderscore cs

/-- The emotion substring encoded in a filename: everything before the
first underscore. -/
def encodedEmotion (s : String) : String :=
  ⟨charsBeforeUnderscore s.data⟩

/-- The speaker-sex substring encoded in a filename: the first character
after the first underscore. -/
def encodedSex (s : String) : String :=
  ⟨(charsAfterUnderscore s.data).take 1⟩

/-- The utterance-id substring encoded in a filename: the maximal run of
digits following the sex character. -/
def encodedUtt (s : String) : String :=
  ⟨((charsAfterUnderscore s.data).drop 1).takeWhile Char.isDigit⟩

/-- The base (dry) filename derived from a dry-reverb target:
`{emotion}_{sex}{utteranceId}.wav`. -/
def targetBaseFilename (t : DryReverbTarget) : String :=
  t.emo ++ "_" ++ t.sex ++ t.utt ++ ".wav"

/-- The base filenames of all dry-reverb targets. -/
def TARGET_BASE_FILES : List String :=
  TARGETS_DRY_RVB.map targetBaseFilename

/-- All filenames occurring as `a` or `b` in the discrimination pairs. -/
def PAIR_FILES : List String :=
  PAIRS_DISCRIMINATION.map (fun p => p.a) ++
    PAIRS_DISCRIMINATION.map (fun p => p.b)

/-- All filenames exposed by the catalog: both filenames of every
discrimination pair, the base filename of every dry-reverb target, every
practice 5AFC filename and every generated test 5AFC filename. -/
def ALL_CATALOG_FILES : List String :=
  PAIR_FILES ++ TARGET_BASE_FILES ++ FILES_PRACTICE_5AFC ++ FILES_TEST_5AFC

/-- The emotion labels admitted by the filename convention of the spec. -/
def conventionEmotions : List String := ["amu", "ang", "sad", "fear", "surp", "rel"]

/-- The sex labels admitted by the filename convention. -/
def conventionSexes : List String := ["F", "M"]

/-- The reverb suffixes admitted by the filename convention; the empty
string stands for the absent (dry) suffix. -/
def conventionSuffixes : List String := ["", "_rvb", "_rvb1", "_rvb2"]

/-- Strips an exact expected character sequence from the front of a list,
returning the remainder, or `none` when the list does not start with it. -/
def dropExact : List Char → List Char → Option (List Char)
  | [], rest => some rest
  | _ :: _, [] => none
  | p :: ps, c :: cs => if p = c then dropExact ps cs else none

/-- Modelled from the spec: whether a filename matches the convention
`{emotion}_{sex}{utteranceId}[_{reverbSuffix}].wav` with an emotion in
{amu, ang, sad, fear, surp, rel}, a sex in {F, M}, a non-empty numeric
utterance id, and a reverb suffix in {rvb, rvb1, rvb2} or absent. -/
def matchesFilenameConvention (s : String) : Bool :=
  conventionEmotions.any fun e =>
    conventionSexes.any fun sx =>
      conventionSuffixes.any fun suf =>
        match dropExact (e ++ "_" ++ sx).data s.data with
        | none => false
        | some rest =>
          match dropExact (suf ++ ".wav").data.reverse rest.reverse with
          | none => false
          | some midRev => !midRev.isEmpty && midRev.all Char.isDigit

/-- The (emotion, sex) pairs the spec requires the dry-reverb target list
to cover: {sad, fear, amu, rel} × {F, M}. -/
def expectedEmotionSexPairs : List (String × String) :=
  ["sad", "fear", "amu", "rel"].product ["F", "M"]

/-- C1: the generated test 5AFC list has exactly 60 filenames, no
duplicates, and exactly one element equal to the filename built from each
tuple of the cartesian product emotion × sex × utterance × condition. -/
theorem test_5afc_exact_cover :
    FILES_TEST_5AFC.length = 60 ∧ FILES_TEST_5AFC.Nodup ∧
      ∀ (e : Fin 5) (s : Fin 2) (u : Fin 2) (c : Fin 3),
        FILES_TEST_5AFC.count (tupleFilename e s u c) = 1 := by
  decide

/-- C2: the element of the test 5AFC list at index
`((e*2 + s)*2 + u)*3 + c` is the filename built from the tuple of indices
`(e, s, u, c)`: the list is in nested-iteration order, emotion outermost
and condition innermost. -/
theorem test_5afc_index_order :
    ∀ (e : Fin 5) (s : Fin 2) (u : Fin 2) (c : Fin 3),
      FILES_TEST_5AFC[((e.val * 2 + s.val) * 2 + u.val) * 3 + c.val]? =
        some (tupleFilename e s u c) := by
  decide

/-- C3: the first element of the test 5AFC list is `"amu_F820.wav"` and
its last element is `"surp_M545_rvb2.wav"`. -/
theorem test_5afc_first_last :
    FILES_TEST_5AFC.head? = some "amu_F820.wav" ∧
      FILES_TEST_5AFC.getLast? = some "surp_M545_rvb2.wav" := by
  decide

/-- C4: the discrimination-pair list has exactly 4 entries; in each, the
sex and utterance substrings encoded in `a` and `b` agree, the target `t`
is the emotion encoded in `a`, and `b` encodes a different emotion. -/
theorem discrimination_pairs_wellformed :
    PAIRS_DISCRIMINATION.length = 4 ∧
      ∀ p ∈ PAIRS_DISCRIMINATION,
        encodedSex p.a = encodedSex p.b ∧ encodedUtt p.a = encodedUtt p.b ∧
          p.t = encodedEmotion p.a ∧ encodedEmotion p.b ≠ encodedEmotion p.a := by
  decide

/-- C5: the dry-reverb target list has exactly 8 entries, its (emotion,
sex) pairs are exactly {sad, fear, amu, rel} × {F, M}, and each entry's
utterance id is 137 for sad/fear and 545 for amu/rel. -/
theorem dry_reverb_targets_cover :
    TARGETS_DRY_RVB.length = 8 ∧
      (∀ q ∈ expectedEmotionSexPairs, ∃ t ∈ TARGETS_DRY_RVB, (t.emo, t.sex) = q) ∧
      (∀ t ∈ TARGETS_DRY_RVB, (t.emo, t.sex) ∈ expectedEmotionSexPairs) ∧
      (∀ t ∈ TARGETS_DRY_RVB,
        ((t.emo = "sad" ∨ t.emo = "fear") → t.utt = "137") ∧
          ((t.emo = "amu" ∨ t.emo = "rel") → t.utt = "545")) := by
  decide

/-- C6: the practice 5AFC list has exactly 10 entries, its encoded
emotions are exactly the five test emotions, each emotion occurring in
exactly two entries (one per sex), and every entry encodes utterance
id 137. -/
theorem practice_5afc_composition :
    FILES_PRACTICE_5AFC.length = 10 ∧
      (∀ f ∈ FILES_PRACTICE_5AFC, encodedEmotion f ∈ emotions) ∧
      (∀ emo ∈ emotions,
        (FILES_PRACTICE_5AFC.countP fun f => encodedEmotion f == emo) = 2 ∧
          (FILES_PRACTICE_5AFC.countP fun f =>
            encodedEmotion f == emo && encodedSex f == "F") = 1 ∧
          (FILES_PRACTICE_5AFC.countP fun f =>
            encodedEmotion f == emo && encodedSex f == "M") = 1) ∧
      (∀ f ∈ FILES_PRACTICE_5AFC, encodedUtt f = "137") := by
  decide

/-- C7: the generation pass is deterministic: run on equal input lists it
yields equal output sequences, and re-running it on the fixed inputs
reproduces `FILES_TEST_5AFC` exactly. -/
theorem generation_deterministic (es ss us cs es2 ss2 us2 cs2 : List String)
    (h1 : es = es2) (h2 : ss = ss2) (h3 : us = us2) (h4 : cs = cs2) :
    generateTestFilenames es ss us cs = generateTestFilenames es2 ss2 us2 cs2 ∧
      generateTestFilenames emotions sexes utterances conditions = FILES_TEST_5AFC := by
  subst h1 h2 h3 h4
  exact ⟨rfl, rfl⟩

/-- Witness for C7: the determinism theorem applied at the fixed input
lists of the source. -/
theorem generation_deterministic_witness :
    generateTestFilenames emotions sexes utterances conditions =
        generateTestFilenames emotions sexes utterances conditions ∧
      generateTestFilenames emotions sexes utterances conditions = FILES_TEST_5AFC :=
  generation_deterministic emotions sexes utterances conditions
    emotions sexes utterances conditions rfl rfl rfl rfl

/-- C8: every filename exposed by the catalog is non-empty and matches
the convention `{emotion}_{sex}{utteranceId}[_{reverbSuffix}].wav`. -/
theorem catalog_filenames_follow_convention :
    ALL_CATALOG_FILES ≠ [] ∧
      ∀ f ∈ ALL_CATALOG_FILES, f ≠ "" ∧ matchesFilenameConvention f = true := by
  decide

/-- C9: the filenames referenced by the discrimination pairs are, as a
set, exactly the base filenames of the dry-reverb targets. -/
theorem pairs_and_targets_same_clips :
    (∀ f ∈ PAIR_FILES, f ∈ TARGET_BASE_FILES) ∧
      (∀ f ∈ TARGET_BASE_FILES, f ∈ PAIR_FILES) := by
  decide

/-- C10: no filename occurs in both the practice and the test 5AFC lists;
every practice filename encodes utterance 137 while every test filename
encodes utterance 820 or 545. -/
theorem practice_test_disjoint :
    (∀ f ∈ FILES_PRACTICE_5AFC, f ∉ FILES_TEST_5AFC) ∧
      (∀ f ∈ FILES_PRACTICE_5AFC, encodedUtt f = "137") ∧
      (∀ f ∈ FILES_TEST_5AFC, encodedUtt f = "820" ∨ encodedUtt f = "545") := by
  decide
